import Mathlib

/-!
Shallow embedding of the output-reconciliation core of the
`ai-decision-engine` repository (a FastAPI / DSPy / LangGraph backend):

* the priority dispatcher `should_continue` (two source variants:
  `src/app/agents/router/router.py` and `src/app/agents/router/agent.py`),
* the `/v1/router` intentions fallback in `src/main.py`,
* the gatekeeper validator `GatekeeperAgent.forward`
  (`src/app/agents/sdr/gatekeeper/agent.py`),
* the closer validator `CloserAgent.forward` together with
  `CloserAgent._parse_datetime` (`src/app/agents/sdr/closer/agent.py`),
* the critic `CriticAgent.forward` and the bounded review loop of
  `src/app/agents/reengage/graph.py`.

Python strings are modelled as `String`, `None`-able values as `Option`,
Python `dict` results as Lean structures, and a Python `raise` as
`Except.error`.  Machine integers do not occur in the modelled code
(all counters are small non-negative ints), so `Nat` is used.
-/

namespace AiDecisionEngine

/-! ### Priority dispatcher (`router.py` and `agent.py` variants) -/

/-- Members of `IntentType` as defined in `src/app/agents/router/router.py`
(five values: SALES, SCHEDULING, TECH_FAQ, MEDICAL_ASSESSMENT, GENERAL_INFO). -/
def routerIntentMembers : List String :=
  ["SALES", "SCHEDULING", "TECH_FAQ", "MEDICAL_ASSESSMENT", "GENERAL_INFO"]

/-- Members of `IntentType` as defined in `src/app/agents/router/agent.py`
(the fourteen-value session/appointment/clinical/sales/system enumeration).
Note this enumeration has no `SCHEDULING`, `SALES` or `TECH_FAQ` member. -/
def agentIntentMembers : List String :=
  ["SESSION_START", "SESSION_CLOSURE",
   "SERVICE_SCHEDULING", "SERVICE_RESCHEDULING", "SERVICE_CANCELLATION",
   "MEDICAL_ASSESSMENT", "PROCEDURE_INQUIRY",
   "AD_CONVERSION", "ORGANIC_INQUIRY", "OFFER_CONVERSION", "REENGAGEMENT_RECOVERY",
   "GENERAL_INFO", "IMAGE_ASSESSMENT", "HUMAN_ESCALATION"]

/-- Members of `IntentType` as defined in `src/app/agents/router/signatures.py`
(the sixteen-value enumeration including INTAKE and the UNCLASSIFIED fallback). -/
def signaturesIntentMembers : List String :=
  ["SESSION_START", "SESSION_CLOSURE",
   "SERVICE_SCHEDULING", "SERVICE_RESCHEDULING", "SERVICE_CANCELLATION",
   "INTAKE", "MEDICAL_ASSESSMENT", "PROCEDURE_INQUIRY",
   "AD_CONVERSION", "ORGANIC_INQUIRY", "OFFER_CONVERSION", "REENGAGEMENT_RECOVERY",
   "GENERAL_INFO", "IMAGE_ASSESSMENT", "HUMAN_ESCALATION", "UNCLASSIFIED"]

/-- Python attribute access `IntentType.<name>.value` on the `agent.py`
enumeration: yields the memberʼs value (which equals its name) when the member
exists, and raises `AttributeError` otherwise. -/
def agentIntentValue (name : String) : Except String String :=
  if agentIntentMembers.contains name then Except.ok name
  else Except.error ("AttributeError: " ++ name)

/-- The conditional-edge function `should_continue` of
`src/app/agents/router/router.py` (lines 271-312).  Its four membership tests
use `IntentType.MEDICAL_ASSESSMENT/SCHEDULING/SALES/TECH_FAQ`, all of which
exist in that fileʼs enumeration, so the function is total. -/
def router_should_continue (intent_queue : List String) : String :=
  if intent_queue.isEmpty then "__end__"
  else if intent_queue.contains "MEDICAL_ASSESSMENT" then "medical_agent"
  else if intent_queue.contains "SCHEDULING" then "scheduler_agent"
  else if intent_queue.contains "SALES" then "closer_agent"
  else if intent_queue.contains "TECH_FAQ" then "faq_agent"
  else "__end__"

/-- The conditional-edge function `should_continue` of
`src/app/agents/router/agent.py` (lines 244-285).  It evaluates
`IntentType.SCHEDULING.value`, `IntentType.SALES.value` and
`IntentType.TECH_FAQ.value` on the `agent.py` enumeration, which has no such
members, so those attribute accesses raise `AttributeError` at run time. -/
def agent_should_continue (intent_queue : List String) : Except String String :=
  if intent_queue.isEmpty then Except.ok "__end__"
  else match agentIntentValue "MEDICAL_ASSESSMENT" with
  | Except.error e => Except.error e
  | Except.ok medical =>
    if intent_queue.contains medical then Except.ok "medical_agent"
    else match agentIntentValue "SCHEDULING" with
    | Except.error e => Except.error e
    | Except.ok sched =>
      if intent_queue.contains sched then Except.ok "scheduler_agent"
      else match agentIntentValue "SALES" with
      | Except.error e => Except.error e
      | Except.ok sales =>
        if intent_queue.contains sales then Except.ok "closer_agent"
        else match agentIntentValue "TECH_FAQ" with
        | Except.error e => Except.error e
        | Except.ok faq =>
          if intent_queue.contains faq then Except.ok "faq_agent"
          else Except.ok "__end__"

/-! ### The `/v1/router` intentions fallback (`src/main.py`, `route_message`) -/

/-- The intentions field of the `/v1/router` response in `src/main.py`
(line 192): `result.get("intentions", ["UNCLASSIFIED"])`.  The graph resultʼs
`intentions` entry is modelled as `Option (List String)`; the default is used
only when the key is absent, any present list is passed through unchanged. -/
def route_message_intentions (result_intentions : Option (List String)) : List String :=
  result_intentions.getD ["UNCLASSIFIED"]

/-- The `router_node` of `src/app/agents/router/agent.py` (lines 170-189)
copies `prediction.intents` into `intent_queue` without any filtering,
trimming, upper-casing or membership validation. -/
def router_node_intent_queue (prediction_intents : List String) : List String :=
  prediction_intents

/-! ### Gatekeeper validator (`src/app/agents/sdr/gatekeeper/agent.py`) -/

/-- Python `str.lower()` (ASCII case folding; the modelled inputs where the
result is consulted are ASCII). -/
def lowerStr (s : String) : String :=
  String.mk (s.data.map Char.toLower)

/-- Strip leading and trailing whitespace from a character list. -/
def stripList (l : List Char) : List Char :=
  ((l.dropWhile Char.isWhitespace).reverse.dropWhile Char.isWhitespace).reverse

/-- Python `str.strip()`. -/
def stripStr (s : String) : String :=
  String.mk (stripList s.data)

/-- Python `str.lower().strip()`, the normalisation the two SDR agents apply
to the raw stage and boolean fields. -/
def pyLowerStrip (s : String) : String :=
  stripStr (lowerStr s)

/-- Python `str.split()` with no argument: split on whitespace runs,
discarding empty fields. -/
def wordsAux : List Char → List Char → List String
  | [], cur => if cur.isEmpty then [] else [String.mk cur.reverse]
  | c :: rest, cur =>
    if c.isWhitespace then
      if cur.isEmpty then wordsAux rest []
      else String.mk cur.reverse :: wordsAux rest []
    else wordsAux rest (c :: cur)

/-- Python `str.split()` on a whole string. -/
def pyWords (s : String) : List String :=
  wordsAux s.data []

/-- The helper `GatekeeperAgent._clean_phone`: reject `None`, empty or the
literal `"null"` (case-insensitive), keep only digit characters, and accept the
result only when at least 10 digits remain. -/
def clean_phone (phone : Option String) : Option String :=
  match phone with
  | none => none
  | some p =>
    if p = "" || lowerStr p = "null" then none
    else
      let digits := String.mk (p.data.filter Char.isDigit)
      if digits.length ≥ 10 then some digits else none

/-- The helper `GatekeeperAgent._clean_name`: reject `None`, empty or the
literal `"null"` (case-insensitive), collapse internal whitespace runs to a
single space, and reject a result that is empty after cleaning. -/
def clean_name (name : Option String) : Option String :=
  match name with
  | none => none
  | some n =>
    if n = "" || lowerStr n = "null" then none
    else
      let parts := pyWords (stripStr n)
      let cleaned := String.intercalate " " parts
      if cleaned ≠ "" then some cleaned else none

/-- Closed stage set of the reception (gatekeeper) flow. -/
def gatekeeperValidStages : List String :=
  ["opening", "requesting", "handling_objection", "success", "failed"]

/-- Result dict of `GatekeeperAgent.forward` (the fields the validator
determines; the free-text `reasoning` and `response_message` fields are
passed through from the model and omitted). -/
structure GatekeeperResult where
  conversation_stage : String
  extracted_manager_contact : Option String
  extracted_manager_name : Option String
  should_send_message : Bool
  deriving Repr, DecidableEq

/-- Validation part of `GatekeeperAgent.forward` (lines 69-93): clean the
extracted contact and name, read `should_continue` as the literal `"true"`
after lower/strip, default an out-of-set stage to `"handling_objection"`, and
force `"success"` when a contact survived cleaning and the stage is not
already terminal.  `attempt_count` is an input of the surrounding function but
is only forwarded to the language model, never consulted by the validation. -/
def gatekeeperForward (raw_stage : String) (raw_contact raw_name : Option String)
    (raw_should : String) (_attempt_count : Nat) : GatekeeperResult :=
  let extracted_contact := clean_phone raw_contact
  let extracted_name := clean_name raw_name
  let should_continue := pyLowerStrip raw_should == "true"
  let stage0 := pyLowerStrip raw_stage
  let stage1 := if gatekeeperValidStages.contains stage0 then stage0 else "handling_objection"
  let stage2 :=
    if extracted_contact.isSome && !(stage1 == "success" || stage1 == "failed")
    then "success" else stage1
  { conversation_stage := stage2
    extracted_manager_contact := extracted_contact
    extracted_manager_name := extracted_name
    should_send_message := should_continue }

/-! ### Date-time parsing (`CloserAgent._parse_datetime`)

The Python code tries `datetime.strptime` with the four formats
`%Y-%m-%dT%H:%M:%S`, `%Y-%m-%dT%H:%M`, `%Y-%m-%d %H:%M:%S`, `%Y-%m-%d %H:%M`
in order, and on failure searches for the regex
`(\d{4}-\d{2}-\d{2})[T\s](\d{2}:\d{2})` and re-parses the first match with
`%Y-%m-%d %H:%M`.  CPython strptime matches `%Y` as exactly four digits and
each of `%m`, `%d`, `%H`, `%M`, `%S` as a one- or two-digit token constrained
to the directiveʼs range (two digits are consumed whenever the two-digit value
fits the directiveʼs pattern; since every following format character is a
non-digit literal or the end of the string, regex backtracking from the
two-digit to the one-digit alternative can never produce a match and is not
modelled).  A whitespace character in the format matches a run of one or more
whitespace characters.  The `datetime` constructor then validates calendar
ranges (year 1-9999, day against month length, second at most 59), raising the
`ValueError` the source catches, which is modelled as `none` here. -/

/-- Numeric value of a digit character. -/
def digitVal (c : Char) : Nat := c.toNat - 48

/-- Match exactly four digits (strptime directive `%Y`). -/
def takeYear : List Char → Option (Nat × List Char)
  | a :: b :: c :: d :: rest =>
    if a.isDigit && b.isDigit && c.isDigit && d.isDigit then
      some (1000 * digitVal a + 100 * digitVal b + 10 * digitVal c + digitVal d, rest)
    else none
  | _ => none

/-- Match a one- or two-digit numeric token: two digits are consumed when the
two-digit value satisfies `two`, otherwise one digit is consumed when its value
satisfies `one` (strptime directives `%m`, `%d`, `%H`, `%M`, `%S`). -/
def takeNum (two one : Nat → Bool) : List Char → Option (Nat × List Char)
  | a :: b :: rest =>
    if a.isDigit && b.isDigit && two (10 * digitVal a + digitVal b) then
      some (10 * digitVal a + digitVal b, rest)
    else if a.isDigit && one (digitVal a) then
      some (digitVal a, b :: rest)
    else none
  | [a] => if a.isDigit && one (digitVal a) then some (digitVal a, []) else none
  | [] => none

/-- Match one literal character. -/
def takeLit (c : Char) : List Char → Option (List Char)
  | a :: rest => if a = c then some rest else none
  | [] => none

/-- Match a run of one or more whitespace characters (a whitespace character in
a strptime format string). -/
def takeWs : List Char → Option (List Char)
  | a :: rest =>
    if a.isWhitespace then
      some (rest.dropWhile Char.isWhitespace)
    else none
  | [] => none

/-- Datetime record produced by a successful parse. -/
structure PyDateTime where
  year : Nat
  month : Nat
  day : Nat
  hour : Nat
  minute : Nat
  second : Nat
  deriving Repr, DecidableEq

/-- Length of a month, with the Gregorian leap-year rule. -/
def daysInMonth (y m : Nat) : Nat :=
  if m = 2 then
    if y % 4 = 0 && (y % 100 ≠ 0 || y % 400 = 0) then 29 else 28
  else if m = 4 || m = 6 || m = 9 || m = 11 then 30
  else 31

/-- Validity checks of the `datetime` constructor (month and hour/minute were
already constrained by the directive patterns; the constructor additionally
enforces year at least 1, day against the month length and second at most 59). -/
def validDateTime (d : PyDateTime) : Bool :=
  1 ≤ d.year && d.year ≤ 9999 &&
  1 ≤ d.month && d.month ≤ 12 &&
  1 ≤ d.day && d.day ≤ daysInMonth d.year d.month &&
  d.hour ≤ 23 && d.minute ≤ 59 && d.second ≤ 59

/-- Construct the datetime iff the constructor checks pass. -/
def mkDateTime (y mo d h mi s : Nat) : Option PyDateTime :=
  if validDateTime ⟨y, mo, d, h, mi, s⟩ then some ⟨y, mo, d, h, mi, s⟩ else none

/-- Two-digit month pattern of strptime (`1[0-2]|0[1-9]`: values 1-12). -/
def monthTwo (v : Nat) : Bool := 1 ≤ v && v ≤ 12

/-- One-digit month pattern (`[1-9]`). -/
def monthOne (v : Nat) : Bool := 1 ≤ v

/-- Two-digit day pattern (`3[01]|[12]\d|0[1-9]`: values 1-31). -/
def dayTwo (v : Nat) : Bool := 1 ≤ v && v ≤ 31

/-- One-digit day pattern (`[1-9]`). -/
def dayOne (v : Nat) : Bool := 1 ≤ v

/-- Two-digit hour pattern (`2[0-3]|[0-1]\d`: values 0-23). -/
def hourTwo (v : Nat) : Bool := v ≤ 23

/-- One-digit hour pattern (`\d`). -/
def hourOne (_v : Nat) : Bool := true

/-- Two-digit minute pattern (`[0-5]\d`: values 0-59). -/
def minuteTwo (v : Nat) : Bool := v ≤ 59

/-- One-digit minute pattern (`\d`). -/
def minuteOne (_v : Nat) : Bool := true

/-- Two-digit second pattern (`6[0-1]|[0-5]\d`: values 0-61; 60 and 61 are
later rejected by the `datetime` constructor). -/
def secondTwo (v : Nat) : Bool := v ≤ 61

/-- One-digit second pattern (`\d`). -/
def secondOne (_v : Nat) : Bool := true

/-- Parse the common `%Y-%m-%d` prefix. -/
def parseDatePart (s : List Char) : Option (Nat × Nat × Nat × List Char) :=
  match takeYear s with
  | none => none
  | some (y, r1) =>
    match takeLit '-' r1 with
    | none => none
    | some r2 =>
      match takeNum monthTwo monthOne r2 with
      | none => none
      | some (mo, r3) =>
        match takeLit '-' r3 with
        | none => none
        | some r4 =>
          match takeNum dayTwo dayOne r4 with
          | none => none
          | some (d, r5) => some (y, mo, d, r5)

/-- Parse one whole-string strptime format `%Y-%m-%d<sep>%H:%M[:%S]`, where
the separator is the literal `T` (`wsSep = false`) or a whitespace run
(`wsSep = true`), and `withSec` selects the trailing `:%S`.  The format
matches only if the whole input is consumed (strptime raises on unconverted
trailing data). -/
def strptimeYmdHms (wsSep withSec : Bool) (s : List Char) : Option PyDateTime :=
  match parseDatePart s with
  | none => none
  | some (y, mo, d, r5) =>
    match (if wsSep then takeWs r5 else takeLit 'T' r5) with
    | none => none
    | some r6 =>
      match takeNum hourTwo hourOne r6 with
      | none => none
      | some (h, r7) =>
        match takeLit ':' r7 with
        | none => none
        | some r8 =>
          match takeNum minuteTwo minuteOne r8 with
          | none => none
          | some (mi, r9) =>
            if withSec then
              match takeLit ':' r9 with
              | none => none
              | some r10 =>
                match takeNum secondTwo secondOne r10 with
                | none => none
                | some (se, r11) =>
                  if r11 = [] then mkDateTime y mo d h mi se else none
            else
              if r9 = [] then mkDateTime y mo d h mi 0 else none

/-- Try the four formats of `_parse_datetime` in source order, first success
winning. -/
def tryFormats (s : List Char) : Option PyDateTime :=
  match strptimeYmdHms false true s with
  | some dt => some dt
  | none =>
    match strptimeYmdHms false false s with
    | some dt => some dt
    | none =>
      match strptimeYmdHms true true s with
      | some dt => some dt
      | none => strptimeYmdHms true false s

/-- Match the fallback regex `\d{4}-\d{2}-\d{2}[T\s]\d{2}:\d{2}` at the head
of the list, returning the five captured numbers. -/
def regexMatchAt : List Char → Option (Nat × Nat × Nat × Nat × Nat)
  | y1 :: y2 :: y3 :: y4 :: s1 :: m1 :: m2 :: s2 :: d1 :: d2 :: sep :: h1 :: h2 :: c :: n1 :: n2 :: _ =>
    if y1.isDigit && y2.isDigit && y3.isDigit && y4.isDigit && s1 = '-' &&
       m1.isDigit && m2.isDigit && s2 = '-' && d1.isDigit && d2.isDigit &&
       (sep = 'T' || sep.isWhitespace) && h1.isDigit && h2.isDigit && c = ':' &&
       n1.isDigit && n2.isDigit then
      some (1000 * digitVal y1 + 100 * digitVal y2 + 10 * digitVal y3 + digitVal y4,
            10 * digitVal m1 + digitVal m2,
            10 * digitVal d1 + digitVal d2,
            10 * digitVal h1 + digitVal h2,
            10 * digitVal n1 + digitVal n2)
    else none
  | _ => none

/-- Leftmost search of the fallback regex (`re.search`): try a match at every
position from the left. -/
def regexSearch : List Char → Option (Nat × Nat × Nat × Nat × Nat)
  | [] => none
  | c :: rest =>
    match regexMatchAt (c :: rest) with
    | some r => some r
    | none => regexSearch rest

/-- Left-pad a number to two digits (Python `%02d`, as in the matched two-digit
groups and in `isoformat`). -/
def pad2 (n : Nat) : String :=
  if n < 10 then "0" ++ toString n else toString n

/-- Left-pad a number to four digits (Python `%04d`). -/
def pad4 (n : Nat) : String :=
  if n < 10 then "000" ++ toString n
  else if n < 100 then "00" ++ toString n
  else if n < 1000 then "0" ++ toString n
  else toString n

/-- Python `datetime.isoformat()` for a datetime without microseconds:
`YYYY-MM-DDTHH:MM:SS`. -/
def isoformat (d : PyDateTime) : String :=
  pad4 d.year ++ "-" ++ pad2 d.month ++ "-" ++ pad2 d.day ++ "T" ++
  pad2 d.hour ++ ":" ++ pad2 d.minute ++ ":" ++ pad2 d.second

/-- Fallback branch of `_parse_datetime`: search the regex, rebuild
`f"{match.group(1)} {match.group(2)}"` from the first match and parse it with
`%Y-%m-%d %H:%M` (the rebuilt string consists of exactly the matched digit
groups, so padding the captured values reproduces it). -/
def regexFallback (s : List Char) : Option PyDateTime :=
  match regexSearch s with
  | none => none
  | some (y, mo, d, h, mi) =>
    let rebuilt := pad4 y ++ "-" ++ pad2 mo ++ "-" ++ pad2 d ++ " " ++ pad2 h ++ ":" ++ pad2 mi
    strptimeYmdHms true false rebuilt.data

/-- The whole of `CloserAgent._parse_datetime` (lines 22-58): `None` and the
literal `"null"` map to `None`; otherwise the stripped input is tried against
the four formats and then the regex fallback, and a success is returned as
`datetime.isoformat()`. -/
def parse_datetime (dt_str : Option String) : Option String :=
  match dt_str with
  | none => none
  | some s =>
    if s = "" || pyLowerStrip s = "null" then none
    else
      let cleaned := stripStr s
      match tryFormats cleaned.data with
      | some dt => some (isoformat dt)
      | none =>
        match regexFallback cleaned.data with
        | some dt => some (isoformat dt)
        | none => none

/-! ### Closer validator (`src/app/agents/sdr/closer/agent.py`, `forward`) -/

/-- Closed stage set of the scheduling (closer) flow. -/
def closerValidStages : List String :=
  ["greeting", "pitching", "proposing_time", "confirming", "scheduled", "lost"]

/-- Mutable triple threaded through the smart-fallback cascade of
`CloserAgent.forward`. -/
structure CloserSt where
  stage : String
  dt : Option String
  should : Bool
  deriving Repr, DecidableEq

/-- Fallback 1 (lines 129-132): a datetime extracted outside the
`scheduled`/`confirming` stages is discarded. -/
def closerFallback1 (s : CloserSt) : CloserSt :=
  if s.dt.isSome && !(s.stage == "scheduled" || s.stage == "confirming") then
    { s with dt := none }
  else s

/-- Python truthiness test `latest_message and "?" in latest_message`. -/
def latestIsQuestion (latest_message : Option String) : Bool :=
  match latest_message with
  | none => false
  | some m => m.data.contains '?'

/-- Fallback 1b (lines 134-138): `scheduled` with a question in the latest
message is downgraded to `confirming` and the datetime discarded. -/
def closerFallback1b (latest_message : Option String) (s : CloserSt) : CloserSt :=
  if s.stage == "scheduled" && latestIsQuestion latest_message then
    { s with stage := "confirming", dt := none }
  else s

/-- Fallback 2 (lines 140-142): `scheduled` without a datetime is downgraded
to `confirming`. -/
def closerFallback2 (s : CloserSt) : CloserSt :=
  if s.stage == "scheduled" && s.dt.isNone then
    { s with stage := "confirming" }
  else s

/-- Fallback 3 (lines 144-146): `proposing_time` without available slots falls
back to `pitching`. -/
def closerFallback3 (available_slots : List String) (s : CloserSt) : CloserSt :=
  if s.stage == "proposing_time" && available_slots.isEmpty then
    { s with stage := "pitching" }
  else s

/-- Fallback 4 (lines 148-151): five or more attempts still in
`greeting`/`pitching` force `lost` and stop the conversation. -/
def closerFallback4 (attempt_count : Nat) (s : CloserSt) : CloserSt :=
  if attempt_count ≥ 5 && (s.stage == "greeting" || s.stage == "pitching") then
    { s with stage := "lost", should := false }
  else s

/-- Fallback 5 (lines 153-155): terminal stages always stop. -/
def closerFallback5 (s : CloserSt) : CloserSt :=
  if s.stage == "scheduled" || s.stage == "lost" then
    { s with should := false }
  else s

/-- Stage validation of `CloserAgent.forward` (lines 121-125): lower/strip the
`safe_str` of the raw stage (default `"pitching"`) and default an
out-of-enumeration value to `"pitching"`. -/
def closerStage1 (raw_stage : Option String) : String :=
  if closerValidStages.contains (pyLowerStrip (raw_stage.getD "pitching")) then
    pyLowerStrip (raw_stage.getD "pitching")
  else "pitching"

/-- Composition of the five smart fallbacks in source order (lines 127-155). -/
def closerCascade (latest_message : Option String) (available_slots : List String)
    (attempt_count : Nat) (st : CloserSt) : CloserSt :=
  closerFallback5 (closerFallback4 attempt_count (closerFallback3 available_slots
    (closerFallback2 (closerFallback1b latest_message (closerFallback1 st)))))

/-- Result dict of `CloserAgent.forward` (validator-determined fields; the
free-text `reasoning` and `response_message` are passed through and omitted). -/
structure CloserResult where
  conversation_stage : String
  meeting_datetime : Option String
  meeting_confirmed : Bool
  should_send_message : Bool
  deriving Repr, DecidableEq

/-- Validation part of `CloserAgent.forward` (lines 107-167).  The raw model
outputs go through `safe_str` (modelled by `Option.getD` with the sourceʼs
defaults), the datetime through `_parse_datetime`, `should_continue` is the
literal `"true"` after lower/strip, an out-of-set stage defaults to
`"pitching"`, and the five smart fallbacks run in source order. -/
def closerForward (raw_stage raw_dt raw_should : Option String)
    (latest_message : Option String) (available_slots : List String)
    (attempt_count : Nat) : CloserResult :=
  let meeting_datetime := parse_datetime (some (raw_dt.getD "null"))
  let should_continue := pyLowerStrip (raw_should.getD "true") == "true"
  let stage1 := closerStage1 raw_stage
  let st : CloserSt := { stage := stage1, dt := meeting_datetime, should := should_continue }
  let r := closerCascade latest_message available_slots attempt_count st
  { conversation_stage := r.stage
    meeting_datetime := r.dt
    meeting_confirmed := r.dt.isSome
    should_send_message := r.should }

/-! ### Critic (`src/app/agents/reengage/critic.py`) -/

/-- Substring occurrence over character lists: the needle is a prefix of some
suffix of the haystack. -/
def listInfix : List Char → List Char → Bool
  | needle, [] => needle.isEmpty
  | needle, c :: rest => needle.isPrefixOf (c :: rest) || listInfix needle rest

/-- Python substring test `needle in hay`. -/
def pyInStr (needle hay : String) : Bool :=
  listInfix needle.data hay.data

/-- The approval decision of `CriticAgent.forward` (lines 17-23): the raw
boolean output approves iff it lower-cases to the literal `"true"`, but a
feedback text containing `"adequada"`, `"parabéns"` or `"excelente"` (after
lower-casing) forces approval.  Lower-casing is modelled by ASCII case
folding, which agrees with Python on the all-lower-case keywords. -/
def criticApproved (raw_is_approved raw_feedback : String) : Bool :=
  let feedback := lowerStr raw_feedback
  let approved := lowerStr raw_is_approved == "true"
  if pyInStr "adequada" feedback || pyInStr "parabéns" feedback ||
     pyInStr "excelente" feedback then
    true
  else approved

/-! ### Review loop (`src/app/agents/reengage/graph.py`)

The graph is `analyst → strategist → copywriter → critic`, with a conditional
edge after `critic` given by `decide_to_retry`: end when
`is_approved is True or revision_count >= 3`, otherwise back to `copywriter`.
The critic node adds 1 to `revision_count` (the `operator.add` accumulator)
and overwrites `is_approved`.  The external reasoner outputs of the i-th
critic call are an oracle pair of raw strings; all other node outputs are
free text that does not influence control flow and is not tracked.  The
small-step model instruments each node with an invocation counter. -/

/-- Nodes of the re-engagement graph (plus the END marker). -/
inductive ReengageNode where
  | analyst
  | strategist
  | copywriter
  | critic
  | teardown
  deriving Repr, DecidableEq

/-- Instrumented configuration of one graph execution. -/
structure ReengageConfig where
  node : ReengageNode
  revision_count : Nat
  is_approved : Bool
  analystCalls : Nat
  strategistCalls : Nat
  copywriterCalls : Nat
  criticCalls : Nat
  deriving Repr, DecidableEq

/-- The conditional-edge predicate `decide_to_retry` (lines 44-55): `true`
means END, `false` means loop back to the copywriter. -/
def decide_to_retry (is_approved : Bool) (revision_count : Nat) : Bool :=
  is_approved || revision_count ≥ 3

/-- One step of the graph: run the current node (updating state and its
counter) and follow its outgoing edge. -/
def reengageStep (rawApproved rawFeedback : Nat → String) (c : ReengageConfig) :
    ReengageConfig :=
  match c.node with
  | .analyst => { c with node := .strategist, analystCalls := c.analystCalls + 1 }
  | .strategist => { c with node := .copywriter, strategistCalls := c.strategistCalls + 1 }
  | .copywriter => { c with node := .critic, copywriterCalls := c.copywriterCalls + 1 }
  | .critic =>
    let i := c.criticCalls
    let approved := criticApproved (rawApproved i) (rawFeedback i)
    let rc := c.revision_count + 1
    { node := if decide_to_retry approved rc then .teardown else .copywriter
      revision_count := rc
      is_approved := approved
      analystCalls := c.analystCalls
      strategistCalls := c.strategistCalls
      copywriterCalls := c.copywriterCalls
      criticCalls := c.criticCalls + 1 }
  | .teardown => c

/-- Iterate the graph for a given number of steps. -/
def reengageExec (rawApproved rawFeedback : Nat → String) :
    Nat → ReengageConfig → ReengageConfig
  | 0, c => c
  | n + 1, c => reengageExec rawApproved rawFeedback n (reengageStep rawApproved rawFeedback c)

/-- Initial state as invoked by `/v1/reengage` in `src/main.py`
(`revision_count: 0`, `is_approved: False`, entry point `analyst`). -/
def reengageInit : ReengageConfig :=
  { node := .analyst, revision_count := 0, is_approved := false
    analystCalls := 0, strategistCalls := 0, copywriterCalls := 0, criticCalls := 0 }

/-! ### Structural lemmas about the closer fallback cascade -/

/-- Datetime invariant: a surviving datetime implies a stage that permits
scheduling commitments. -/
def dtInv (s : CloserSt) : Prop :=
  s.dt.isSome = true → s.stage = "scheduled" ∨ s.stage = "confirming"

/-- Scheduled invariant: the `scheduled` stage implies a surviving datetime. -/
def schedInv (s : CloserSt) : Prop :=
  s.stage = "scheduled" → s.dt.isSome = true

theorem closerFallback1_stage (s : CloserSt) : (closerFallback1 s).stage = s.stage := by
  unfold closerFallback1
  split <;> rfl

theorem closerFallback1_should (s : CloserSt) : (closerFallback1 s).should = s.should := by
  unfold closerFallback1
  split <;> rfl

theorem closerFallback1_dtInv (s : CloserSt) : dtInv (closerFallback1 s) := by
  unfold dtInv closerFallback1
  split <;> rename_i hc <;> intro hdt
  · simp at hdt
  · simp [hdt] at hc
    exact or_iff_not_imp_left.mpr hc

theorem closerFallback1b_id (lm : Option String) (s : CloserSt)
    (h : s.stage ≠ "scheduled") : closerFallback1b lm s = s := by
  unfold closerFallback1b
  split <;> rename_i hc
  · rw [Bool.and_eq_true] at hc
    exact absurd (by simpa using hc.1) h
  · rfl

theorem closerFallback1b_dtInv (lm : Option String) (s : CloserSt)
    (h : dtInv s) : dtInv (closerFallback1b lm s) := by
  unfold dtInv closerFallback1b at *
  split <;> rename_i hc <;> intro hdt
  · simp at hdt
  · exact h hdt

theorem closerFallback2_schedInv (s : CloserSt) : schedInv (closerFallback2 s) := by
  unfold schedInv closerFallback2
  split <;> rename_i hc <;> intro hst
  · simp at hst
  · cases hdt : s.dt with
    | none => simp [hst, hdt] at hc
    | some v => simp [hdt]

theorem closerFallback2_id (s : CloserSt) (h : s.stage ≠ "scheduled") :
    closerFallback2 s = s := by
  unfold closerFallback2
  split <;> rename_i hc
  · rw [Bool.and_eq_true] at hc
    exact absurd (by simpa using hc.1) h
  · rfl

theorem closerFallback2_dtInv (s : CloserSt) (h : dtInv s) : dtInv (closerFallback2 s) := by
  unfold dtInv closerFallback2 at *
  split <;> rename_i hc <;> intro hdt
  · simp
  · exact h hdt

theorem closerFallback3_id (slots : List String) (s : CloserSt)
    (h : s.stage ≠ "proposing_time") : closerFallback3 slots s = s := by
  unfold closerFallback3
  split <;> rename_i hc
  · rw [Bool.and_eq_true] at hc
    exact absurd (by simpa using hc.1) h
  · rfl

theorem closerFallback3_stage_or (slots : List String) (s : CloserSt) :
    (closerFallback3 slots s).stage = s.stage ∨
      ((closerFallback3 slots s).stage = "pitching" ∧ s.stage = "proposing_time") := by
  unfold closerFallback3
  split <;> rename_i hc
  · rw [Bool.and_eq_true] at hc
    exact Or.inr ⟨rfl, by simpa using hc.1⟩
  · exact Or.inl rfl

theorem closerFallback3_dt (slots : List String) (s : CloserSt) :
    (closerFallback3 slots s).dt = s.dt := by
  unfold closerFallback3
  split <;> rfl

theorem closerFallback3_dtInv (slots : List String) (s : CloserSt)
    (h : dtInv s) : dtInv (closerFallback3 slots s) := by
  unfold dtInv at *
  rw [closerFallback3_dt]
  intro hdt
  rcases closerFallback3_stage_or slots s with hst | ⟨_, hst⟩
  · rw [hst]; exact h hdt
  · rcases h hdt with h1 | h1 <;> rw [h1] at hst <;> simp at hst

theorem closerFallback3_schedInv (slots : List String) (s : CloserSt)
    (h : schedInv s) : schedInv (closerFallback3 slots s) := by
  unfold schedInv at *
  rw [closerFallback3_dt]
  intro hst
  rcases closerFallback3_stage_or slots s with h1 | ⟨h1, _⟩
  · exact h (h1 ▸ hst)
  · rw [hst] at h1; simp at h1

theorem closerFallback4_id (att : Nat) (s : CloserSt) (h : att < 5) :
    closerFallback4 att s = s := by
  unfold closerFallback4
  split <;> rename_i hc
  · rw [Bool.and_eq_true] at hc
    have : ¬ (5 ≤ att) := Nat.not_le.mpr h
    simp [this] at hc
  · rfl

theorem closerFallback4_force (att : Nat) (s : CloserSt) (h5 : 5 ≤ att)
    (h : s.stage = "greeting" ∨ s.stage = "pitching") :
    closerFallback4 att s = { stage := "lost", dt := s.dt, should := false } := by
  unfold closerFallback4
  split <;> rename_i hc
  · rfl
  · exfalso
    apply hc
    rw [Bool.and_eq_true]
    refine ⟨by simpa using h5, ?_⟩
    rcases h with h | h <;> simp [h]

theorem closerFallback4_dtInv (att : Nat) (s : CloserSt) (h : dtInv s) :
    dtInv (closerFallback4 att s) := by
  unfold dtInv at *
  unfold closerFallback4
  split <;> rename_i hc <;> intro hdt
  · rw [Bool.and_eq_true] at hc
    exfalso
    rcases h hdt with h1 | h1 <;> rcases (by simpa using hc.2 : s.stage = "greeting" ∨ s.stage = "pitching") with h2 | h2 <;>
      rw [h1] at h2 <;> simp at h2
  · exact h hdt

theorem closerFallback4_schedInv (att : Nat) (s : CloserSt) (h : schedInv s) :
    schedInv (closerFallback4 att s) := by
  unfold schedInv at *
  unfold closerFallback4
  split <;> rename_i hc <;> intro hst
  · simp at hst
  · exact h hst

theorem closerFallback5_stage (s : CloserSt) : (closerFallback5 s).stage = s.stage := by
  unfold closerFallback5
  split <;> rfl

theorem closerFallback5_dt (s : CloserSt) : (closerFallback5 s).dt = s.dt := by
  unfold closerFallback5
  split <;> rfl

theorem closerFallback5_terminal (s : CloserSt)
    (h : (closerFallback5 s).stage = "scheduled" ∨ (closerFallback5 s).stage = "lost") :
    (closerFallback5 s).should = false := by
  unfold closerFallback5 at *
  split <;> rename_i hc
  · rfl
  · exfalso
    apply hc
    rcases h with h | h <;> simp_all

theorem closerCascade_dtInv (lm : Option String) (slots : List String) (att : Nat)
    (st : CloserSt) : dtInv (closerCascade lm slots att st) := by
  unfold closerCascade
  have h1 := closerFallback1_dtInv st
  have h2 := closerFallback1b_dtInv lm _ h1
  have h3 := closerFallback2_dtInv _ h2
  have h4 := closerFallback3_dtInv slots _ h3
  have h5 := closerFallback4_dtInv att _ h4
  unfold dtInv at h5 ⊢
  rw [closerFallback5_stage, closerFallback5_dt]
  exact h5

theorem closerCascade_schedInv (lm : Option String) (slots : List String) (att : Nat)
    (st : CloserSt) : schedInv (closerCascade lm slots att st) := by
  unfold closerCascade
  have h2 := closerFallback2_schedInv (closerFallback1b lm (closerFallback1 st))
  have h3 := closerFallback3_schedInv slots _ h2
  have h4 := closerFallback4_schedInv att _ h3
  unfold schedInv at h4 ⊢
  rw [closerFallback5_stage, closerFallback5_dt]
  exact h4

theorem closerStage1_of_eq {raw : Option String} {x : String}
    (hx : closerValidStages.contains x = true)
    (h : pyLowerStrip (raw.getD "pitching") = x) : closerStage1 raw = x := by
  unfold closerStage1
  rw [h]
  simp only [hx]
  simp

theorem closerStage1_of_invalid {raw : Option String}
    (h : closerValidStages.contains (pyLowerStrip (raw.getD "pitching")) = false) :
    closerStage1 raw = "pitching" := by
  unfold closerStage1
  simp only [h]
  simp

theorem closerCascade_force_lost (lm : Option String) (slots : List String) (att : Nat)
    (st : CloserSt) (h5 : 5 ≤ att) (h : st.stage = "greeting" ∨ st.stage = "pitching") :
    (closerCascade lm slots att st).stage = "lost" ∧
      (closerCascade lm slots att st).should = false := by
  unfold closerCascade
  have h1s := closerFallback1_stage st
  have hne : (closerFallback1 st).stage ≠ "scheduled" := by
    rw [h1s]
    rcases h with h | h <;> rw [h] <;> decide
  have hne3 : (closerFallback1 st).stage ≠ "proposing_time" := by
    rw [h1s]
    rcases h with h | h <;> rw [h] <;> decide
  rw [closerFallback1b_id lm _ hne, closerFallback2_id _ hne,
      closerFallback3_id slots _ hne3,
      closerFallback4_force att _ h5 (by rw [h1s]; exact h)]
  constructor
  · rw [closerFallback5_stage]
  · apply closerFallback5_terminal
    rw [closerFallback5_stage]
    exact Or.inr rfl

theorem closerCascade_keep_pitching (lm : Option String) (slots : List String) (att : Nat)
    (st : CloserSt) (ha : att < 5) (h : st.stage = "pitching") :
    (closerCascade lm slots att st).stage = "pitching" := by
  unfold closerCascade
  have h1s := closerFallback1_stage st
  have hne : (closerFallback1 st).stage ≠ "scheduled" := by rw [h1s, h]; decide
  have hne3 : (closerFallback1 st).stage ≠ "proposing_time" := by rw [h1s, h]; decide
  rw [closerFallback1b_id lm _ hne, closerFallback2_id _ hne,
      closerFallback3_id slots _ hne3, closerFallback4_id att _ ha,
      closerFallback5_stage, h1s, h]

/-! ### Validity of every successful datetime parse -/

theorem mkDateTime_valid {y mo d h mi se : Nat} {dt : PyDateTime}
    (hm : mkDateTime y mo d h mi se = some dt) : validDateTime dt = true := by
  unfold mkDateTime at hm
  split at hm
  · rename_i hv
    obtain rfl : (⟨y, mo, d, h, mi, se⟩ : PyDateTime) = dt := Option.some.inj hm
    exact hv
  · exact Option.noConfusion hm

theorem strptimeYmdHms_valid {ws sec : Bool} {s : List Char} {dt : PyDateTime}
    (h : strptimeYmdHms ws sec s = some dt) : validDateTime dt = true := by
  unfold strptimeYmdHms at h
  repeat' split at h
  all_goals first
    | exact Option.noConfusion h
    | exact mkDateTime_valid h

theorem tryFormats_valid {s : List Char} {dt : PyDateTime}
    (h : tryFormats s = some dt) : validDateTime dt = true := by
  unfold tryFormats at h
  repeat' split at h
  all_goals first
    | exact Option.noConfusion h
    | exact strptimeYmdHms_valid h
    | (rename_i d2 heq
       exact (Option.some.inj h) ▸ strptimeYmdHms_valid heq)

theorem regexFallback_valid {s : List Char} {dt : PyDateTime}
    (h : regexFallback s = some dt) : validDateTime dt = true := by
  unfold regexFallback at h
  split at h
  · exact Option.noConfusion h
  · exact strptimeYmdHms_valid h

/-! ## Claims -/

/-- C9: for every input, `_parse_datetime` returns either `None` or the
`isoformat` of a calendar-valid datetime obtained from one of the four fixed
formats or the regex fallback — never a partially-parsed or differently
formatted value — and, being a total function over all string inputs, it never
raises. -/
theorem c9_parse_datetime_canonical (dt_str : Option String) :
    parse_datetime dt_str = none ∨
    ∃ d : PyDateTime, validDateTime d = true ∧
      parse_datetime dt_str = some (isoformat d) := by
  cases dt_str with
  | none => exact Or.inl rfl
  | some s =>
    simp only [parse_datetime]
    split
    · exact Or.inl rfl
    · rcases htf : tryFormats (stripStr s).data with _ | d
      · rcases hrf : regexFallback (stripStr s).data with _ | d2
        · left
          simp [htf, hrf]
        · right
          exact ⟨d2, regexFallback_valid hrf, by simp [htf, hrf]⟩
      · right
        exact ⟨d, tryFormats_valid htf, by simp [htf]⟩

/-- C9 witness: the regex fallback recovering a datetime from noisy text
still yields a canonical result. -/
theorem c9_witness :
    parse_datetime (some "vamos 2025-03-01 09:30 então") = none ∨
    ∃ d : PyDateTime, validDateTime d = true ∧
      parse_datetime (some "vamos 2025-03-01 09:30 então") = some (isoformat d) :=
  c9_parse_datetime_canonical (some "vamos 2025-03-01 09:30 então")

/-- C1 counterexample: the raw stage `"confirming"` together with a valid raw
datetime survives every fallback, so the scheduling validator returns a
non-null `meeting_datetime` with a stage that is not `"scheduled"`, refuting
the claimed equivalence in the right-to-left direction. -/
theorem c1_scheduled_iff_datetime_fails :
    (closerForward (some "confirming") (some "2025-01-15T10:00") (some "true")
      (some "Pode ser amanhã") ["2025-01-15 10:00"] 1).conversation_stage = "confirming" ∧
    (closerForward (some "confirming") (some "2025-01-15T10:00") (some "true")
      (some "Pode ser amanhã") ["2025-01-15 10:00"] 1).meeting_datetime =
        some "2025-01-15T10:00:00" ∧
    ¬ ((closerForward (some "confirming") (some "2025-01-15T10:00") (some "true")
        (some "Pode ser amanhã") ["2025-01-15 10:00"] 1).conversation_stage = "scheduled" ↔
       (closerForward (some "confirming") (some "2025-01-15T10:00") (some "true")
        (some "Pode ser amanhã") ["2025-01-15 10:00"] 1).meeting_datetime ≠ none) := by
  decide

/-- C1 amended: for every scheduling-flow validator call, the returned stage
`"scheduled"` implies a non-null `meeting_datetime`, and a non-null
`meeting_datetime` implies the returned stage is `"scheduled"` or
`"confirming"` (the full equivalence fails, see the counterexample). -/
theorem c1_amended_datetime_stage
    (raw_stage raw_dt raw_should latest_message : Option String)
    (available_slots : List String) (attempt_count : Nat) :
    ((closerForward raw_stage raw_dt raw_should latest_message available_slots
        attempt_count).conversation_stage = "scheduled" →
      (closerForward raw_stage raw_dt raw_should latest_message available_slots
        attempt_count).meeting_datetime ≠ none) ∧
    ((closerForward raw_stage raw_dt raw_should latest_message available_slots
        attempt_count).meeting_datetime ≠ none →
      (closerForward raw_stage raw_dt raw_should latest_message available_slots
        attempt_count).conversation_stage = "scheduled" ∨
      (closerForward raw_stage raw_dt raw_should latest_message available_slots
        attempt_count).conversation_stage = "confirming") := by
  have hs := closerCascade_schedInv latest_message available_slots attempt_count
    { stage := closerStage1 raw_stage,
      dt := parse_datetime (some (raw_dt.getD "null")),
      should := pyLowerStrip (raw_should.getD "true") == "true" }
  have hd := closerCascade_dtInv latest_message available_slots attempt_count
    { stage := closerStage1 raw_stage,
      dt := parse_datetime (some (raw_dt.getD "null")),
      should := pyLowerStrip (raw_should.getD "true") == "true" }
  unfold schedInv at hs
  unfold dtInv at hd
  constructor
  · intro h
    simpa [Option.isSome_iff_ne_none] using hs h
  · intro h
    exact hd (by simpa [Option.isSome_iff_ne_none] using h)

/-- C1 amended witness: a clean scheduled confirmation keeps its datetime. -/
theorem c1_amended_witness :
    (closerForward (some "scheduled") (some "2025-01-15T10:00") (some "false")
      (some "Pode ser.") ["2025-01-15 10:00"] 0).meeting_datetime ≠ none :=
  (c1_amended_datetime_stage (some "scheduled") (some "2025-01-15T10:00") (some "false")
    (some "Pode ser.") ["2025-01-15 10:00"] 0).1 (by decide)

/-- C2 counterexample: the reception validator never forces the flag; the raw
stage `"success"` with raw `should_continue = "true"` is returned as a
terminal stage with the flag still true. -/
theorem c2_terminal_flag_fails :
    (gatekeeperForward "success" (some "null") (some "null") "true" 0).conversation_stage =
      "success" ∧
    (gatekeeperForward "success" (some "null") (some "null") "true" 0).should_send_message =
      true ∧
    ¬ ((gatekeeperForward "success" (some "null") (some "null") "true" 0).should_send_message =
        false ↔
       ((gatekeeperForward "success" (some "null") (some "null") "true" 0).conversation_stage =
          "success" ∨
        (gatekeeperForward "success" (some "null") (some "null") "true" 0).conversation_stage =
          "failed")) := by
  decide

/-- C2 amended: in the scheduling flow a terminal returned stage
(`scheduled`/`lost`) forces the flag to false, but the converse fails (the
flag echoes the raw model output in non-terminal stages); in the reception
flow the flag is exactly the raw `should_continue` comparison, independent of
the returned stage. -/
theorem c2_amended_flag_semantics
    (raw_stage raw_dt raw_should latest_message : Option String)
    (available_slots : List String) (attempt_count : Nat)
    (g_stage g_should : String) (g_contact g_name : Option String) (g_att : Nat) :
    (((closerForward raw_stage raw_dt raw_should latest_message available_slots
        attempt_count).conversation_stage = "scheduled" ∨
      (closerForward raw_stage raw_dt raw_should latest_message available_slots
        attempt_count).conversation_stage = "lost") →
      (closerForward raw_stage raw_dt raw_should latest_message available_slots
        attempt_count).should_send_message = false) ∧
    (gatekeeperForward g_stage g_contact g_name g_should g_att).should_send_message =
      (pyLowerStrip g_should == "true") := by
  constructor
  · intro h
    exact closerFallback5_terminal _ h
  · rfl

/-- C2 amended witness: a lost conversation stops, and the reception flag
follows the raw output even in a terminal stage. -/
theorem c2_amended_witness :
    (closerForward (some "lost") none (some "true") none [] 0).should_send_message = false ∧
    (gatekeeperForward "success" (some "null") (some "null") "true" 0).should_send_message =
      (pyLowerStrip "true" == "true") :=
  ⟨(c2_amended_flag_semantics (some "lost") none (some "true") none [] 0
      "success" "true" (some "null") (some "null") 0).1 (Or.inr (by decide)),
   (c2_amended_flag_semantics (some "lost") none (some "true") none [] 0
      "success" "true" (some "null") (some "null") 0).2⟩

/-- C3 counterexample: the reception validator has no attempt-count rule at
all; with `attempt_count = 6` and the proposed stage `"opening"` it returns
`"opening"` with the flag still true instead of the terminal failure stage. -/
theorem c3_gatekeeper_attempt_rule_missing :
    (gatekeeperForward "opening" (some "null") none "true" 6).conversation_stage = "opening" ∧
    (gatekeeperForward "opening" (some "null") none "true" 6).should_send_message = true ∧
    ¬ ((gatekeeperForward "opening" (some "null") none "true" 6).conversation_stage =
        "failed" ∧
       (gatekeeperForward "opening" (some "null") none "true" 6).should_send_message =
        false) := by
  decide

/-- C3 amended: only the scheduling flow enforces the attempt ceiling: with
`attempt_count ≥ 5` and a proposed stage in the earliest two non-terminal
stages (`greeting`/`pitching`) it outputs `lost` with the flag false, while
the reception validator is entirely independent of `attempt_count`. -/
theorem c3_amended_closer_only
    (raw_stage raw_dt raw_should latest_message : Option String)
    (available_slots : List String) (attempt_count : Nat)
    (h5 : 5 ≤ attempt_count)
    (hst : pyLowerStrip (raw_stage.getD "pitching") = "greeting" ∨
           pyLowerStrip (raw_stage.getD "pitching") = "pitching") :
    ((closerForward raw_stage raw_dt raw_should latest_message available_slots
        attempt_count).conversation_stage = "lost" ∧
     (closerForward raw_stage raw_dt raw_should latest_message available_slots
        attempt_count).should_send_message = false) ∧
    (∀ (s : String) (c n : Option String) (b : String) (a a' : Nat),
      gatekeeperForward s c n b a = gatekeeperForward s c n b a') := by
  refine ⟨?_, fun s c n b a a' => rfl⟩
  have hstage1 : closerStage1 raw_stage = "greeting" ∨ closerStage1 raw_stage = "pitching" := by
    rcases hst with h | h
    · exact Or.inl (closerStage1_of_eq (by decide) h)
    · exact Or.inr (closerStage1_of_eq (by decide) h)
  exact closerCascade_force_lost latest_message available_slots attempt_count
    { stage := closerStage1 raw_stage,
      dt := parse_datetime (some (raw_dt.getD "null")),
      should := pyLowerStrip (raw_should.getD "true") == "true" } h5 hstage1

/-- C3 amended witness: the spec scenario `attempt_count = 6`, raw stage
`"pitching"` forces `lost` with the flag false in the scheduling flow. -/
theorem c3_amended_witness :
    (closerForward (some "pitching") none (some "true") none [] 6).conversation_stage =
      "lost" ∧
    (closerForward (some "pitching") none (some "true") none [] 6).should_send_message =
      false :=
  (c3_amended_closer_only (some "pitching") none (some "true") none [] 6
    (by decide) (Or.inr (by decide))).1

/-- C6 counterexample: an out-of-enumeration proposed stage in the reception
flow defaults to `"handling_objection"`, not to the claimed `"requesting"`. -/
theorem c6_gatekeeper_default_not_requesting :
    (gatekeeperForward "???" (some "null") none "true" 0).conversation_stage =
      "handling_objection" ∧
    (gatekeeperForward "???" (some "null") none "true" 0).conversation_stage ≠
      "requesting" := by
  decide

/-- C6 amended: an out-of-enumeration proposed stage defaults to
`"handling_objection"` in the reception flow (returned unchanged when no
contact survives cleaning) and to `"pitching"` in the scheduling flow
(returned unchanged when the attempt ceiling has not been hit). -/
theorem c6_amended_default_stages
    (g_stage g_should : String) (g_contact g_name : Option String) (g_att : Nat)
    (hg : gatekeeperValidStages.contains (pyLowerStrip g_stage) = false)
    (hcontact : clean_phone g_contact = none)
    (raw_stage raw_dt raw_should latest_message : Option String)
    (available_slots : List String) (attempt_count : Nat)
    (hcl : closerValidStages.contains (pyLowerStrip (raw_stage.getD "pitching")) = false)
    (hatt : attempt_count < 5) :
    (gatekeeperForward g_stage g_contact g_name g_should g_att).conversation_stage =
      "handling_objection" ∧
    (closerForward raw_stage raw_dt raw_should latest_message available_slots
      attempt_count).conversation_stage = "pitching" := by
  constructor
  · unfold gatekeeperForward
    simp only [hg, hcontact]
    simp
  · exact closerCascade_keep_pitching latest_message available_slots attempt_count
      { stage := closerStage1 raw_stage,
        dt := parse_datetime (some (raw_dt.getD "null")),
        should := pyLowerStrip (raw_should.getD "true") == "true" } hatt
      (closerStage1_of_invalid hcl)

/-- C6 amended witness at concrete out-of-enumeration stages. -/
theorem c6_amended_witness :
    (gatekeeperForward "???" (some "null") none "true" 0).conversation_stage =
      "handling_objection" ∧
    (closerForward (some "???") none (some "true") none [] 0).conversation_stage =
      "pitching" := by
  have h := c6_amended_default_stages "???" "true" (some "null") none 0
    (by decide) (by decide) (some "???") none (some "true") none [] 0
    (by decide) (by decide)
  exact h

/-- C4: the tail of the priority dispatcher.  The `router.py` variant does
return the end marker on category sets with none of the four priority
categories, but the `agent.py` variant evaluates `IntentType.SCHEDULING.value`
on an enumeration without that member, so a queue containing only
`GENERAL_INFO` or only `SESSION_START` raises `AttributeError` instead of
returning the end marker, contradicting the docstring of the very same
function (priority item 5 and the closing comment both promise END). -/
theorem c4_dispatcher_attribute_error :
    agent_should_continue ["GENERAL_INFO"] = Except.error "AttributeError: SCHEDULING" ∧
    agent_should_continue ["SESSION_START"] = Except.error "AttributeError: SCHEDULING" ∧
    router_should_continue ["GENERAL_INFO"] = "__end__" ∧
    router_should_continue ["SESSION_START"] = "__end__" ∧
    agentIntentMembers.contains "SCHEDULING" = false :=
  ⟨rfl, rfl, rfl, rfl, rfl⟩

/-- C5: the priority dispatcher is deterministic (equal category sets yield
equal branches) and any category set containing `MEDICAL_ASSESSMENT` routes to
the medical branch in both source variants, regardless of the other categories
present. -/
theorem c5_dispatcher_deterministic_medical_priority :
    (∀ q₁ q₂ : List String, q₁ = q₂ →
      router_should_continue q₁ = router_should_continue q₂) ∧
    (∀ q : List String, q.contains "MEDICAL_ASSESSMENT" = true →
      router_should_continue q = "medical_agent" ∧
      agent_should_continue q = Except.ok "medical_agent") := by
  refine ⟨fun q₁ q₂ h => h ▸ rfl, fun q h => ?_⟩
  have hne : q.isEmpty = false := by
    cases q with
    | nil => simp at h
    | cons a as => rfl
  have hmem : "MEDICAL_ASSESSMENT" ∈ q := by
    simpa using h
  constructor
  · simp [router_should_continue, hne, hmem]
  · simp [agent_should_continue, hne, agentIntentValue, agentIntentMembers, hmem]

/-- C5 witness: the spec scenario `["MEDICAL_ASSESSMENT", "SERVICE_SCHEDULING"]`
returns the medical branch. -/
theorem c5_witness :
    (["MEDICAL_ASSESSMENT", "SERVICE_SCHEDULING"] : List String).contains
        "MEDICAL_ASSESSMENT" = true ∧
    router_should_continue ["MEDICAL_ASSESSMENT", "SERVICE_SCHEDULING"] = "medical_agent" ∧
    agent_should_continue ["MEDICAL_ASSESSMENT", "SERVICE_SCHEDULING"] =
      Except.ok "medical_agent" :=
  ⟨by decide,
   (c5_dispatcher_deterministic_medical_priority.2 _ (by decide)).1,
   (c5_dispatcher_deterministic_medical_priority.2 _ (by decide)).2⟩

/-- C7 counterexample: there is no category normalizer on the cited paths.
An `intentions` entry that is present but empty is returned as the empty list
(not `["UNCLASSIFIED"]`, and not non-empty), and an out-of-enumeration element
such as `"FOO"` passes through both `route_message` and `router_node`
unchanged. -/
theorem c7_normalizer_passthrough :
    route_message_intentions (some []) = [] ∧
    route_message_intentions (some ["FOO"]) = ["FOO"] ∧
    signaturesIntentMembers.contains "FOO" = false ∧
    router_node_intent_queue ["FOO", ""] = ["FOO", ""] := by
  decide

/-- C7 amended: the only repair on the cited paths is the `dict.get` default
in `route_message`: a missing `intentions` key yields `["UNCLASSIFIED"]`, and
any present list — empty, duplicated or out of the enumeration — is returned
exactly as produced, `router_node` likewise passing `prediction.intents`
through unchanged. -/
theorem c7_amended_fallback_only_on_missing :
    route_message_intentions none = ["UNCLASSIFIED"] ∧
    (∀ l : List String, route_message_intentions (some l) = l) ∧
    (∀ l : List String, router_node_intent_queue l = l) :=
  ⟨rfl, fun _ => rfl, fun _ => rfl⟩

/-- C7 amended witness at a concrete present list. -/
theorem c7_amended_witness :
    route_message_intentions (some ["SESSION_START", "FOO"]) = ["SESSION_START", "FOO"] :=
  c7_amended_fallback_only_on_missing.2.1 ["SESSION_START", "FOO"]

/-- C10: the criticʼs approval override.  A feedback text containing
`"adequada"`, `"parabéns"` or `"excelente"` after lower-casing forces
`is_approved = true`; otherwise approval holds exactly when the raw boolean
output lower-cases to the literal `"true"`. -/
theorem c10_critic_approval (raw_is_approved raw_feedback : String) :
    ((pyInStr "adequada" (lowerStr raw_feedback) ||
      pyInStr "parabéns" (lowerStr raw_feedback) ||
      pyInStr "excelente" (lowerStr raw_feedback)) = true →
        criticApproved raw_is_approved raw_feedback = true) ∧
    ((pyInStr "adequada" (lowerStr raw_feedback) ||
      pyInStr "parabéns" (lowerStr raw_feedback) ||
      pyInStr "excelente" (lowerStr raw_feedback)) = false →
        (criticApproved raw_is_approved raw_feedback = true ↔
          lowerStr raw_is_approved = "true")) := by
  unfold criticApproved
  constructor
  · intro h
    simp [h]
  · intro h
    simp [h]

/-- C8: for every pair of critic-output oracles, the review pipeline reaches
END within 8 graph steps with the analyst and strategist executed exactly
once, the copywriter executed once per critic review (at most 3 times, i.e.
at most 2 extra round-trips, within the claimed bound of 3), at least one and
at most 3 reviews performed, and the exit taken exactly when
`decide_to_retry` holds (approved or `revision_count ≥ 3`). -/
theorem c8_review_loop_bounded (rawApproved rawFeedback : Nat → String) :
    (reengageExec rawApproved rawFeedback 8 reengageInit).node = ReengageNode.teardown ∧
    (reengageExec rawApproved rawFeedback 8 reengageInit).analystCalls = 1 ∧
    (reengageExec rawApproved rawFeedback 8 reengageInit).strategistCalls = 1 ∧
    (reengageExec rawApproved rawFeedback 8 reengageInit).copywriterCalls =
      (reengageExec rawApproved rawFeedback 8 reengageInit).revision_count ∧
    (reengageExec rawApproved rawFeedback 8 reengageInit).revision_count ≤ 3 ∧
    1 ≤ (reengageExec rawApproved rawFeedback 8 reengageInit).revision_count ∧
    decide_to_retry (reengageExec rawApproved rawFeedback 8 reengageInit).is_approved
      (reengageExec rawApproved rawFeedback 8 reengageInit).revision_count = true := by
  cases h0 : criticApproved (rawApproved 0) (rawFeedback 0) <;>
  cases h1 : criticApproved (rawApproved 1) (rawFeedback 1) <;>
  cases h2 : criticApproved (rawApproved 2) (rawFeedback 2) <;>
    simp [reengageExec, reengageStep, reengageInit, decide_to_retry, h0, h1, h2]

/-- C8 witness: with a critic that always rejects, the loop still ends after
exactly 3 reviews. -/
theorem c8_witness :
    (reengageExec (fun _ => "False") (fun _ => "precisa melhorar") 8
      reengageInit).node = ReengageNode.teardown ∧
    (reengageExec (fun _ => "False") (fun _ => "precisa melhorar") 8
      reengageInit).revision_count ≤ 3 :=
  ⟨(c8_review_loop_bounded (fun _ => "False") (fun _ => "precisa melhorar")).1,
   (c8_review_loop_bounded (fun _ => "False") (fun _ => "precisa melhorar")).2.2.2.2.1⟩

/-- C10 witness: positive feedback overrides a raw `"False"`, and without a
keyword the raw boolean decides. -/
theorem c10_witness :
    criticApproved "False" "A mensagem está adequada." = true ∧
    (criticApproved "True" "precisa melhorar" = true ↔ lowerStr "True" = "true") :=
  ⟨(c10_critic_approval "False" "A mensagem está adequada.").1 (by decide),
   (c10_critic_approval "True" "precisa melhorar").2 (by decide)⟩

end AiDecisionEngine
